import Mathlib

/-!
# Verification of the resume-analysis pipeline

A shallow embedding of the core pipeline of this repository:

* `app/services/text_extraction.py` — text cleaning (`_clean_text`),
  heuristic quality scoring (`_assess_text_quality`), plain-text extraction
  (`_extract_from_text`) and the PDF strategy selection (`_extract_from_pdf`);
* `app/services/gemini_service.py` — routing (`analyze_resume_complete`),
  defensive response parsing (`_parse_analysis_response`,
  `_parse_qa_assessment_response`), retry with backoff
  (`_generate_content_async`), the Q&A readiness flow (`assess_qa_readiness`)
  and batch orchestration (`batch_analyze_resumes`).

External libraries that the source calls (`json.loads`,
`unicodedata.normalize`, `str.isprintable`, the provider SDK, the PDF
libraries) are modelled as explicit function parameters; everything the
repository itself does is translated directly.  Python floats are modelled
as rationals, Python dicts as insertion-ordered association lists.
-/

set_option maxRecDepth 10000

/-- A JSON-like dynamic value, the codomain of Python dict entries that flow
through the analysis pipeline. -/
inductive JVal where
  | num (q : ℚ)
  | str (s : String)
  | arr (l : List JVal)
  | obj (l : List (String × JVal))
  | bool (b : Bool)
  | null

/-- A Python dict with string keys, modelled as an insertion-ordered
association list (first binding of a key is the authoritative one; the
operations below maintain at most one binding per key, as a dict does). -/
abbrev PyDict := List (String × JVal)

/-- Lookup, i.e. `d[k]` / `d.get(k)` returning `None` when absent. -/
def dget (d : PyDict) (k : String) : Option JVal :=
  (d.find? (fun p => p.1 = k)).map (·.2)

/-- `d.get(k, default)`. -/
def dgetD (d : PyDict) (k : String) (v : JVal) : JVal :=
  (dget d k).getD v

/-- `k in d`. -/
def dmem (d : PyDict) (k : String) : Bool :=
  (dget d k).isSome

/-- `d[k] = v`: replace the binding in place if the key is present,
otherwise append it (Python dicts preserve insertion order). -/
def dset (d : PyDict) (k : String) (v : JVal) : PyDict :=
  if dmem d k then d.map (fun p => if p.1 = k then (k, v) else p)
  else d ++ [(k, v)]

/-- `TextExtractionResult` (text_extraction.py, lines 26–41).  The
`extraction_timestamp` is irrelevant to every claim and omitted;
`needs_vlm_processing` keeps its Python default of `False`. -/
structure TextExtractionResult where
  text : String
  method : String
  confidence : ℚ
  metadata : PyDict
  needs_vlm_processing : Bool := false

/-- The two analysis paths `GeminiService.analyze_resume_complete` can take,
each carrying exactly the input the source hands to it: the vision path gets
the raw file path, the text path gets the extracted text. -/
inductive AnalysisRoute where
  | vision (file_path : String)
  | text (extracted_text : String)
  deriving DecidableEq

/-- The routing decision of `GeminiService.analyze_resume_complete`
(gemini_service.py, lines 409–415):
`if extraction_result.needs_vlm_processing or extraction_result.confidence < 0.7`
take the vision path on `file_path`, else the text path on
`extraction_result.text`. -/
def analyze_resume_complete_route (extraction_result : TextExtractionResult)
    (file_path : String) : AnalysisRoute :=
  if extraction_result.needs_vlm_processing = true ∨
      extraction_result.confidence < 7/10 then
    .vision file_path
  else
    .text extraction_result.text

/-- The whitespace class of Python's `\s` / `str.isspace` / `str.strip` for
the characters relevant here (the full ASCII set plus the standard Unicode
space characters). -/
def pyIsSpace (c : Char) : Bool :=
  c = ' ' || c = '\t' || c = '\n' || c = '\r' ||
  c.toNat = 0x0B || c.toNat = 0x0C ||
  (0x1C ≤ c.toNat && c.toNat ≤ 0x1F) ||
  c.toNat = 0x85 || c.toNat = 0xA0 || c.toNat = 0x1680 ||
  (0x2000 ≤ c.toNat && c.toNat ≤ 0x200A) ||
  c.toNat = 0x2028 || c.toNat = 0x2029 ||
  c.toNat = 0x202F || c.toNat = 0x205F || c.toNat = 0x3000

/-- Python `str.strip()` on a character list: drop leading and trailing
whitespace. -/
def pyStrip (l : List Char) : List Char :=
  ((l.dropWhile pyIsSpace).reverse.dropWhile pyIsSpace).reverse

/-- Python `str.strip()`. -/
def pyStripStr (s : String) : String :=
  String.mk (pyStrip s.data)

/-- The code-fence stripping of `GeminiService._parse_analysis_response` /
`_parse_qa_assessment_response` (gemini_service.py, lines 730–743 and
794–804): strip, drop a leading three-backtick marker (with or without the
`json` tag), drop a trailing three-backtick marker, strip again (the final
strip is the `cleaned_text.strip()` inside the `json.loads` call). -/
def strip_code_fences (response_text : String) : String :=
  let cleaned := pyStripStr response_text
  let cleaned :=
    if cleaned.startsWith "```json" then cleaned.drop 7
    else if cleaned.startsWith "```" then cleaned.drop 3
    else cleaned
  let cleaned := if cleaned.endsWith "```" then cleaned.dropRight 3 else cleaned
  pyStripStr cleaned

/-- The `required_fields` defaults of `GeminiService._parse_analysis_response`
(gemini_service.py, lines 746–759). -/
def REQUIRED_FIELDS : PyDict :=
  [("overall_score", .num 50),
   ("skills_extracted", .arr []),
   ("experience_years", .num 0),
   ("experience_level", .str "entry"),
   ("education", .obj []),
   ("previous_roles", .arr []),
   ("key_achievements", .arr []),
   ("analysis_summary", .str "Resume analysis completed"),
   ("strengths", .arr []),
   ("areas_for_improvement", .arr []),
   ("confidence_score", .num (1/2)),
   ("contact_info", .obj [])]

/-- The backfill loop of `_parse_analysis_response` (lines 761–763):
`for field, default_value in required_fields.items(): if field not in
analysis_data: analysis_data[field] = default_value`. -/
def backfill_required_fields (data : PyDict) : PyDict :=
  REQUIRED_FIELDS.foldl
    (fun d fv => if dmem d fv.1 then d else dset d fv.1 fv.2) data

/-- The degraded analysis dict returned by `_parse_analysis_response` when
`json.loads` raises (gemini_service.py, lines 767–786). -/
def FAILED_PARSE_DATA (diagnostic : String) : PyDict :=
  [("overall_score", .num 25),
   ("skills_extracted", .arr []),
   ("experience_years", .num 0),
   ("experience_level", .str "entry"),
   ("education", .obj []),
   ("previous_roles", .arr []),
   ("key_achievements", .arr []),
   ("analysis_summary", .str "Analysis parsing failed - manual review required"),
   ("strengths", .arr []),
   ("areas_for_improvement", .arr [.str "Resume analysis needs manual review"]),
   ("confidence_score", .num (1/10)),
   ("contact_info", .obj []),
   ("parsing_error", .str ("JSON parsing failed: " ++ diagnostic))]

/-- `GeminiService._parse_analysis_response` (gemini_service.py, lines
724–786).  `json_loads` is the oracle for the external `json.loads`: `.ok`
is a successful parse to an object, `.error` is a `JSONDecodeError`
carrying `str(e)`.  The only exception the source catches is
`json.JSONDecodeError`, so on every input whose parse fails the function
returns the degraded dict instead of raising. -/
def parse_analysis_response
    (json_loads : String → Except String PyDict)
    (response_text : String) : PyDict :=
  match json_loads (strip_code_fences response_text) with
  | .ok analysis_data => backfill_required_fields analysis_data
  | .error e => FAILED_PARSE_DATA e

/-- `ResumeAnalysisResult` (gemini_service.py, lines 34–65): every field is
populated by `data.get(key, default)`; the `analysis_timestamp` is irrelevant
to the claims and omitted. -/
structure ResumeAnalysisResult where
  overall_score : JVal
  skills_extracted : JVal
  experience_years : JVal
  experience_level : JVal
  education : JVal
  previous_roles : JVal
  key_achievements : JVal
  analysis_summary : JVal
  strengths : JVal
  areas_for_improvement : JVal
  confidence_score : JVal
  contact_info : JVal
  qa_readiness_score : JVal
  question_predictions : JVal
  interview_recommendations : JVal
  job_match_score : JVal
  job_specific_strengths : JVal
  job_specific_gaps : JVal
  processing_method : JVal
  parsing_error : JVal

/-- `ResumeAnalysisResult.__init__` (gemini_service.py, lines 38–65). -/
def ResumeAnalysisResult.ofData (data : PyDict) : ResumeAnalysisResult where
  overall_score := dgetD data "overall_score" (.num 0)
  skills_extracted := dgetD data "skills_extracted" (.arr [])
  experience_years := dgetD data "experience_years" (.num 0)
  experience_level := dgetD data "experience_level" (.str "entry")
  education := dgetD data "education" (.obj [])
  previous_roles := dgetD data "previous_roles" (.arr [])
  key_achievements := dgetD data "key_achievements" (.arr [])
  analysis_summary := dgetD data "analysis_summary" (.str "")
  strengths := dgetD data "strengths" (.arr [])
  areas_for_improvement := dgetD data "areas_for_improvement" (.arr [])
  confidence_score := dgetD data "confidence_score" (.num 0)
  contact_info := dgetD data "contact_info" (.obj [])
  qa_readiness_score := dgetD data "qa_readiness_score" (.num 0)
  question_predictions := dgetD data "question_predictions" (.arr [])
  interview_recommendations := dgetD data "interview_recommendations" (.arr [])
  job_match_score := dgetD data "job_match_score" (.num 0)
  job_specific_strengths := dgetD data "job_specific_strengths" (.arr [])
  job_specific_gaps := dgetD data "job_specific_gaps" (.arr [])
  processing_method := dgetD data "processing_method" (.str "text_analysis")
  parsing_error := dgetD data "parsing_error" .null

/-- The pure tail of `GeminiService.analyze_resume_text` once the provider
response text is in hand (gemini_service.py, lines 214–221): parse the
response, then unconditionally stamp
`analysis_data["processing_method"] = "gemini_text_analysis"`, then build the
`ResumeAnalysisResult`. -/
def analyze_resume_text_result
    (json_loads : String → Except String PyDict)
    (response_text : String) : ResumeAnalysisResult :=
  ResumeAnalysisResult.ofData
    (dset (parse_analysis_response json_loads response_text)
      "processing_method" (.str "gemini_text_analysis"))

/-- The degraded Q&A dict returned by
`GeminiService._parse_qa_assessment_response` when `json.loads` raises
(gemini_service.py, lines 818–826). -/
def QA_PARSE_FAILED_DATA (diagnostic : String) : PyDict :=
  [("qa_readiness_score", .num 0),
   ("question_assessments", .arr []),
   ("interview_recommendations",
     .arr [.str "Manual assessment required due to parsing error"]),
   ("overall_assessment", .str "Assessment parsing failed"),
   ("parsing_error", .str diagnostic)]

/-- `GeminiService._parse_qa_assessment_response` (gemini_service.py, lines
788–826): strip fences, parse, backfill the four required assessment fields,
or return the degraded dict on `JSONDecodeError`. -/
def parse_qa_assessment_response
    (json_loads : String → Except String PyDict)
    (response_text : String) : PyDict :=
  match json_loads (strip_code_fences response_text) with
  | .ok assessment_data =>
    let d := if dmem assessment_data "qa_readiness_score" then assessment_data
      else dset assessment_data "qa_readiness_score" (.num 0)
    let d := if dmem d "question_assessments" then d
      else dset d "question_assessments" (.arr [])
    let d := if dmem d "interview_recommendations" then d
      else dset d "interview_recommendations" (.arr [])
    let d := if dmem d "overall_assessment" then d
      else dset d "overall_assessment" (.str "Assessment completed")
    d
  | .error e => QA_PARSE_FAILED_DATA e

/-- The degraded assessment dict built by the `except` handler of
`GeminiService.assess_qa_readiness` (gemini_service.py, lines 371–379). -/
def QA_ERROR_DATA (error_message : String) : PyDict :=
  [("qa_readiness_score", .num 0),
   ("question_assessments", .arr []),
   ("interview_recommendations",
     .arr [.str "Manual assessment required due to error"]),
   ("overall_assessment", .str "Assessment failed"),
   ("error", .str error_message)]

/-- `GeminiService.assess_qa_readiness` (gemini_service.py, lines 311–379).
`provider_response` is the outcome of the awaited provider call
(`_generate_content_async`): `.ok` carries the response text, `.error` is any
exception raised inside the `try` block.  The `resume_analysis` and
`job_questions` arguments only shape the prompt sent to the provider and do
not influence the error handling. -/
def assess_qa_readiness (json_loads : String → Except String PyDict)
    (resume_analysis : ResumeAnalysisResult) (job_questions : List PyDict)
    (provider_response : Except String String) : PyDict :=
  match provider_response with
  | .ok response_text => parse_qa_assessment_response json_loads response_text
  | .error e => QA_ERROR_DATA e

/-- The `error_data` dict built by the per-item exception handler inside
`GeminiService.batch_analyze_resumes.analyze_single` (gemini_service.py,
lines 870–889). -/
def BATCH_ERROR_DATA (error_message : String) : PyDict :=
  [("overall_score", .num 0),
   ("skills_extracted", .arr []),
   ("experience_years", .num 0),
   ("experience_level", .str "entry"),
   ("education", .obj []),
   ("previous_roles", .arr []),
   ("key_achievements", .arr []),
   ("analysis_summary", .str ("Analysis failed: " ++ error_message)),
   ("strengths", .arr []),
   ("areas_for_improvement", .arr [.str "Manual review required"]),
   ("confidence_score", .num 0),
   ("contact_info", .obj []),
   ("processing_method", .str "batch_analysis_failed"),
   ("error", .str error_message)]

/-- `batch_analyze_resumes.analyze_single` (gemini_service.py, lines
857–889): run the complete analysis for one key and catch every exception,
converting it into the degraded error analysis, always returning the pair
`(file_key, analysis)`.  `analyze_complete` is the per-key outcome of
`analyze_resume_complete` (`.error` is any exception it raised). -/
def analyze_single
    (analyze_complete : String → Except String ResumeAnalysisResult)
    (file_key : String) : String × ResumeAnalysisResult :=
  match analyze_complete file_key with
  | .ok analysis => (file_key, analysis)
  | .error e => (file_key, ResumeAnalysisResult.ofData (BATCH_ERROR_DATA e))

/-- `GeminiService.batch_analyze_resumes` (gemini_service.py, lines 828–922):
one `analyze_single` task per submitted key, gathered into the result map.
`analyze_single` never raises (its `except` clause returns the degraded
pair), so the `isinstance(result, Exception)` skip in the gather loop never
fires and every task contributes its key/value pair. -/
def batch_analyze_resumes
    (analyze_complete : String → Except String ResumeAnalysisResult)
    (file_keys : List String) : List (String × ResumeAnalysisResult) :=
  file_keys.map (analyze_single analyze_complete)

/-- The typed transient provider failure of the Model Invoker. -/
structure ProviderError where
  message : String
  deriving DecidableEq

/-- A provider response (only its text matters downstream). -/
structure GenResponse where
  text : String
  deriving DecidableEq

/-- The retry loop of `GeminiService._generate_content_async`
(gemini_service.py, lines 624–722): `for attempt in range(max_retries)`,
return the response on success; on failure sleep `retry_delay` seconds and
double it unless this was the last attempt, in which case re-raise.
`provider n` is the outcome of the n-th `model.generate_content` call.
Returns the final outcome, the number of attempts made, and the list of
sleep delays in order. -/
def generate_content_loop
    (provider : Nat → Except ProviderError GenResponse)
    (max_retries : Nat) (attempt : Nat) (retry_delay : Nat)
    (sleeps : List Nat) :
    Except ProviderError GenResponse × Nat × List Nat :=
  match provider attempt with
  | .ok response => (.ok response, attempt + 1, sleeps.reverse)
  | .error e =>
    if h : attempt < max_retries - 1 then
      generate_content_loop provider max_retries (attempt + 1)
        (retry_delay * 2) (retry_delay :: sleeps)
    else
      (.error e, attempt + 1, sleeps.reverse)
termination_by max_retries - attempt
decreasing_by omega

/-- `GeminiService._generate_content_async`: `max_retries = 3`,
`retry_delay = 1`. -/
def generate_content_async
    (provider : Nat → Except ProviderError GenResponse) :
    Except ProviderError GenResponse × Nat × List Nat :=
  generate_content_loop provider 3 0 1 []

/-- ASCII word character, modelling `\w` of Python's `re` for the ASCII
texts handled here (letters, digits, underscore). -/
def pyIsWordChar (c : Char) : Bool :=
  c.isAlpha || c.isDigit || c = '_'

/-- `re.sub(r'\s+', ' ', text)` (text_extraction.py, line 395): replace every
maximal whitespace run by a single space.  The Boolean records whether the
previous character belonged to a run. -/
def collapseWsGo : Bool → List Char → List Char
  | _, [] => []
  | inRun, c :: rest =>
    if pyIsSpace c then
      if inRun then collapseWsGo true rest
      else ' ' :: collapseWsGo true rest
    else c :: collapseWsGo false rest

/-- Collapse whitespace runs to single spaces. -/
def collapseWs (l : List Char) : List Char :=
  collapseWsGo false l

/-- The control characters removed by
`re.sub(r'[\x00-\x08\x0B\x0C\x0E-\x1F\x7F]', '', text)`
(text_extraction.py, line 398). -/
def isControlArtifact (c : Char) : Bool :=
  c.toNat ≤ 0x08 || c.toNat = 0x0B || c.toNat = 0x0C ||
  (0x0E ≤ c.toNat && c.toNat ≤ 0x1F) || c.toNat = 0x7F

/-- The private-use-area characters removed by
the range U+F000 to U+F8FF (text_extraction.py, line 401). -/
def isPrivateUseArtifact (c : Char) : Bool :=
  0xF000 ≤ c.toNat && c.toNat ≤ 0xF8FF

/-- Emit a finished non-ASCII run: keep it when printable, otherwise replace
the whole run by one space (the run is accumulated in reverse). -/
def flushNonAscii (printable : List Char → Bool) (run : List Char) :
    List Char :=
  if run.isEmpty then []
  else if printable run.reverse then run.reverse else [' ']

/-- `re.sub(r'[^\x00-\x7F]+', lambda m: m.group(0) if m.group(0).isprintable()
else ' ', text)` (text_extraction.py, line 402), with `printable` the oracle
for Python's `str.isprintable`. -/
def nonAsciiFixGo (printable : List Char → Bool) :
    List Char → List Char → List Char
  | run, [] => flushNonAscii printable run
  | run, c :: rest =>
    if 0x7F < c.toNat then nonAsciiFixGo printable (c :: run) rest
    else flushNonAscii printable run ++ c :: nonAsciiFixGo printable [] rest

/-- Replace each maximal unprintable non-ASCII run with a space. -/
def nonAsciiFix (printable : List Char → Bool) (l : List Char) : List Char :=
  nonAsciiFixGo printable [] l

/-- `re.sub(r'\r\n|\r', '\n', text)` (text_extraction.py, line 405). -/
def crToLf : List Char → List Char
  | [] => []
  | ['\r'] => ['\n']
  | '\r' :: '\n' :: rest => '\n' :: crToLf rest
  | '\r' :: c :: rest => '\n' :: crToLf (c :: rest)
  | c :: rest => c :: crToLf rest

/-- Emit a finished newline run after collapsing: three or more newlines
become exactly two (`re.sub(r'\n{3,}', '\n\n', text)` keeps shorter runs). -/
def emitNewlines (k : Nat) : List Char :=
  if 3 ≤ k then ['\n', '\n'] else List.replicate k '\n'

/-- `re.sub(r'\n{3,}', '\n\n', text)` (text_extraction.py, line 408); `k`
counts the current newline run. -/
def collapseNlGo : Nat → List Char → List Char
  | k, [] => emitNewlines k
  | k, c :: rest =>
    if c = '\n' then collapseNlGo (k + 1) rest
    else emitNewlines k ++ c :: collapseNlGo 0 rest

/-- Collapse runs of three or more newlines to two. -/
def collapseNewlines (l : List Char) : List Char :=
  collapseNlGo 0 l

/-- The first five steps of `TextExtractionService._clean_text`
(text_extraction.py, lines 391–402): Unicode NFKD normalization (the oracle
`nfkd` stands for the external `unicodedata.normalize('NFKD', ·)`),
whitespace collapse, control-character removal, private-use-area removal,
and the non-ASCII printability pass. -/
def clean_text_pre (nfkd : List Char → List Char)
    (printable : List Char → Bool) (text : String) : List Char :=
  nonAsciiFix printable
    (((collapseWs (nfkd text.data)).filter
        (fun c => !isControlArtifact c)).filter
      (fun c => !isPrivateUseArtifact c))

/-- `TextExtractionService._clean_text` (text_extraction.py, lines 383–413):
the five steps of `clean_text_pre`, then line-ending normalization, blank
line collapsing, and a final strip; the empty string is returned unchanged
(`if not text: return ""`). -/
def clean_text (nfkd : List Char → List Char) (printable : List Char → Bool)
    (text : String) : String :=
  if text = "" then ""
  else
    String.mk
      (pyStrip (collapseNewlines (crToLf (clean_text_pre nfkd printable text))))

/-- Case-insensitive match of a keyword against the front of the text
(`re.IGNORECASE`; the keywords are lowercase). -/
def consumeCI : List Char → List Char → Option (List Char)
  | [], cs => some cs
  | _ :: _, [] => none
  | k :: ks, c :: cs => if c.toLower = k then consumeCI ks cs else none

/-- Skip a maximal whitespace run. -/
def dropWsRun : List Char → List Char
  | [] => []
  | c :: rest => if pyIsSpace c then dropWsRun rest else c :: rest

/-- Consume `\s+`: at least one whitespace character, maximally. -/
def consumeWs1 : List Char → Option (List Char)
  | [] => none
  | c :: rest => if pyIsSpace c then some (dropWsRun rest) else none

/-- A word boundary `\b` immediately after a word character: holds at end of
text or before a non-word character. -/
def boundaryAt : List Char → Bool
  | [] => true
  | c :: _ => !pyIsWordChar c

/-- No word character on the left, so `\b` holds before a word character. -/
def prevNonWord : Option Char → Bool
  | none => true
  | some p => !pyIsWordChar p

/-- Match a keyword phrase — consecutive words separated by `\s+` (this
handles the `work\s+history` alternative) — returning the rest of the
text. -/
def matchWords : List (List Char) → List Char → Option (List Char)
  | [], cs => some cs
  | w :: ws, cs =>
    match consumeCI w cs with
    | none => none
    | some cs' =>
      match ws with
      | [] => some cs'
      | _ :: _ =>
        match consumeWs1 cs' with
        | none => none
        | some cs'' => matchWords ws cs''

/-- `re.search` for `\b<phrase>\b` (case-insensitive): scan every start
position, requiring a word boundary before (all keywords start with a
letter) and after the phrase. -/
def searchWords (alt : List (List Char)) : Option Char → List Char → Bool
  | _, [] => false
  | prev, c :: rest =>
    (prevNonWord prev &&
      (match matchWords alt (c :: rest) with
       | some rem => boundaryAt rem
       | none => false)) ||
    searchWords alt (some c) rest

/-- `RESUME_SECTION_PATTERNS` (text_extraction.py, lines 67–71): three
patterns, each an alternation of keyword phrases wrapped in `\b...\b`. -/
def RESUME_SECTION_PATTERNS : List (List (List String)) :=
  [[["experience"], ["education"], ["skills"], ["summary"], ["objective"],
    ["employment"], ["work", "history"]],
   [["projects"], ["achievements"], ["certifications"], ["awards"],
    ["publications"]],
   [["contact"], ["email"], ["phone"], ["address"], ["linkedin"]]]

/-- `re.search(pattern, text, re.IGNORECASE)` for one section pattern. -/
def re_search_sections (alternatives : List (List String)) (text : String) :
    Bool :=
  alternatives.any (fun alt => searchWords (alt.map String.data) none text.data)

/-- Characters of the email local part `[A-Za-z0-9._%+-]`. -/
def isEmailLocalChar (c : Char) : Bool :=
  c.isAlpha || c.isDigit || c = '.' || c = '_' || c = '%' || c = '+' || c = '-'

/-- Characters of the email domain part `[A-Za-z0-9.-]`. -/
def isEmailDomainChar (c : Char) : Bool :=
  c.isAlpha || c.isDigit || c = '.' || c = '-'

/-- Characters of the top-level-domain class `[A-Z|a-z]` (the source regex
literally includes `|` inside the class). -/
def isTldChar (c : Char) : Bool :=
  c.isAlpha || c = '|'

/-- Match `[A-Z|a-z]{2,}\b` at the current position: at least two class
characters followed by a word boundary (`n` counts consumed characters,
`prev` is the last consumed one). -/
def tldScan : Nat → Option Char → List Char → Bool
  | n, prev, [] =>
    2 ≤ n && (match prev with
              | some p => pyIsWordChar p
              | none => false)
  | n, prev, c :: rest =>
    (2 ≤ n && (match prev with
               | some p => pyIsWordChar p != pyIsWordChar c
               | none => false)) ||
    (isTldChar c && tldScan (n + 1) (some c) rest)

/-- Match `[A-Za-z0-9.-]+\.[A-Z|a-z]{2,}\b` after the `@`: `seen` records
that at least one domain character precedes the candidate dot. -/
def domainScan : Bool → List Char → Bool
  | _, [] => false
  | seen, c :: rest =>
    (c = '.' && seen && tldScan 0 none rest) ||
    (isEmailDomainChar c && domainScan true rest)

/-- Looking left from the `@` (the reversed prefix): some nonempty run of
local-part characters abuts the `@` and starts at a word boundary. -/
def localScan : List Char → Bool
  | [] => false
  | c :: rest =>
    isEmailLocalChar c &&
      ((match rest with
        | [] => pyIsWordChar c
        | p :: _ => pyIsWordChar p != pyIsWordChar c) ||
       localScan rest)

/-- Scan for `\b[A-Za-z0-9._%+-]+@[A-Za-z0-9.-]+\.[A-Z|a-z]{2,}\b`
(text_extraction.py, line 447), carrying the reversed prefix for the
left-context checks. -/
def emailScan : List Char → List Char → Bool
  | _, [] => false
  | revPre, c :: rest =>
    (c = '@' && localScan revPre && domainScan false rest) ||
    emailScan (c :: revPre) rest

/-- `re.search` for the email pattern. -/
def email_search (text : String) : Bool :=
  emailScan [] text.data

/-- Consume exactly `n` digits. -/
def takeDigits : Nat → List Char → Option (List Char)
  | 0, cs => some cs
  | _ + 1, [] => none
  | n + 1, c :: rest => if c.isDigit then takeDigits n rest else none

/-- The two continuations of the optional separator `[-.]?`. -/
def sepBranches : List Char → List (List Char)
  | [] => [[]]
  | c :: rest => if c = '-' || c = '.' then [rest, c :: rest] else [c :: rest]

/-- Match `\d{3}[-.]?\d{3}[-.]?\d{4}\b` at the current position. -/
def phoneAt (cs : List Char) : Bool :=
  match takeDigits 3 cs with
  | none => false
  | some r1 =>
    (sepBranches r1).any fun r2 =>
      match takeDigits 3 r2 with
      | none => false
      | some r3 =>
        (sepBranches r3).any fun r4 =>
          match takeDigits 4 r4 with
          | none => false
          | some r5 => boundaryAt r5

/-- Scan for `\b\d{3}[-.]?\d{3}[-.]?\d{4}\b` (text_extraction.py,
line 449). -/
def phoneScan : Option Char → List Char → Bool
  | _, [] => false
  | prev, c :: rest =>
    (prevNonWord prev && phoneAt (c :: rest)) || phoneScan (some c) rest

/-- `re.search` for the phone pattern. -/
def phone_search (text : String) : Bool :=
  phoneScan none text.data

/-- `len(re.findall(r'[^\w\s]', text))` (text_extraction.py, line 453). -/
def specialCharCount (text : String) : Nat :=
  (text.data.filter (fun c => !pyIsWordChar c && !pyIsSpace c)).length

/-- `len(text.split())`: number of maximal non-whitespace runs. -/
def pyWordCountGo : Bool → List Char → Nat
  | _, [] => 0
  | inWord, c :: rest =>
    if pyIsSpace c then pyWordCountGo false rest
    else (if inWord then 0 else 1) + pyWordCountGo true rest

/-- `len(text.split())`. -/
def pyWordCount (text : String) : Nat :=
  pyWordCountGo false text.data

/-- `TextExtractionService.MIN_TEXT_LENGTH` (text_extraction.py, line 62). -/
def MIN_TEXT_LENGTH : Nat := 100

/-- `TextExtractionService.MIN_WORD_COUNT` (text_extraction.py, line 63). -/
def MIN_WORD_COUNT : Nat := 20

/-- `TextExtractionService.MIN_CONFIDENCE_THRESHOLD` (text_extraction.py,
line 64; its own comment reads "Below this, recommend VLM processing"). -/
def MIN_CONFIDENCE_THRESHOLD : ℚ := 7/10

/-- `TextExtractionService._assess_text_quality` (text_extraction.py, lines
415–457): 0.0 below the length floor, 0.2 below the word floor, otherwise a
0.3 base plus pattern/length/contact bonuses minus a special-character
penalty, clamped to [0, 1]. -/
def assess_text_quality (text : String) : ℚ :=
  if text = "" ∨ text.length < MIN_TEXT_LENGTH then 0
  else if pyWordCount text < MIN_WORD_COUNT then 1/5
  else
    let confidence : ℚ := 3/10
    let resume_pattern_matches :=
      (RESUME_SECTION_PATTERNS.filter
        (fun pat => re_search_sections pat text)).length
    let pattern_score : ℚ :=
      min ((resume_pattern_matches : ℚ) / (RESUME_SECTION_PATTERNS.length : ℚ)) 1
    let confidence := confidence + pattern_score * (2/5)
    let confidence := if 500 < text.length then confidence + 1/10 else confidence
    let confidence := if 100 < pyWordCount text then confidence + 1/10 else confidence
    let confidence := if email_search text then confidence + 1/20 else confidence
    let confidence := if phone_search text then confidence + 1/20 else confidence
    let special_char_share : ℚ := (specialCharCount text : ℚ) / (text.length : ℚ)
    let confidence :=
      if 1/10 < special_char_share then confidence - 1/10 else confidence
    min (max confidence 0) 1

/-- `TextExtractionService._extract_from_text` (text_extraction.py, lines
318–342), given the decoded file content: clean, score, and build the
result.  The constructor call passes no `needs_vlm_processing`, so the flag
keeps its default `False`. -/
def extract_from_text (nfkd : List Char → List Char)
    (printable : List Char → Bool) (raw_text : String) :
    TextExtractionResult :=
  let cleaned_text := clean_text nfkd printable raw_text
  let confidence := assess_text_quality cleaned_text
  { text := cleaned_text
    method := "plain_text"
    confidence := confidence
    metadata :=
      [("method", .str "plain_text"),
       ("raw_text_length", .num (raw_text.length : ℚ)),
       ("cleaned_text_length", .num (cleaned_text.length : ℚ)),
       ("encoding", .str "utf-8")] }

/-- `TextExtractionService._extract_from_pdf` (text_extraction.py, lines
120–152) with the two strategies as thunks (they wrap the external PDF
libraries; `PDF_PROCESSING_AVAILABLE` is taken as true): return the PyPDF2
result if its confidence exceeds the threshold; otherwise run pdfplumber and
return its result immediately when it scores strictly higher; otherwise pick
the better of the two and set `needs_vlm_processing` when still below the
threshold. -/
def extract_from_pdf (pypdf2_strategy : Unit → TextExtractionResult)
    (pdfplumber_strategy : Unit → TextExtractionResult) :
    TextExtractionResult :=
  let pypdf_result := pypdf2_strategy ()
  if MIN_CONFIDENCE_THRESHOLD < pypdf_result.confidence then pypdf_result
  else
    let pdfplumber_result := pdfplumber_strategy ()
    if pypdf_result.confidence < pdfplumber_result.confidence then
      pdfplumber_result
    else
      let best_result :=
        if pypdf_result.confidence < pdfplumber_result.confidence then
          pdfplumber_result
        else pypdf_result
      if best_result.confidence < MIN_CONFIDENCE_THRESHOLD then
        { best_result with needs_vlm_processing := true }
      else best_result

/-- A concrete 50-word plain text with no resume section keywords: fifty
copies of the word "ab" separated by single spaces (149 characters). -/
def fiftyWordText : String :=
  String.mk (List.intercalate [' '] (List.replicate 50 ['a', 'b']))

/-- C1: deterministic routing of the analysis orchestrator: vision-mode on the
raw document when `needs_fallback` is set or confidence is below 0.7,
text-mode on the extracted text otherwise. -/
theorem claim_C1 (er : TextExtractionResult) (fp : String) :
    ((er.needs_vlm_processing = true ∨ er.confidence < 7/10) →
      analyze_resume_complete_route er fp = .vision fp) ∧
    ((er.needs_vlm_processing = false ∧ 7/10 ≤ er.confidence) →
      analyze_resume_complete_route er fp = .text er.text) := by
  constructor
  · intro h
    simp [analyze_resume_complete_route, h]
  · rintro ⟨h1, h2⟩
    simp [analyze_resume_complete_route, h1, not_lt.mpr h2]

/-- Witness for C1: a concrete high-confidence result routes to text-mode and
a concrete low-confidence result routes to vision-mode. -/
theorem claim_C1_witness :
    analyze_resume_complete_route
      { text := "resume text", method := "direct_pdf_pypdf2", confidence := 9/10,
        metadata := [] } "cv.pdf" = .text "resume text" ∧
    analyze_resume_complete_route
      { text := "garbled", method := "direct_pdf_pypdf2", confidence := 1/10,
        metadata := [] } "cv.pdf" = .vision "cv.pdf" := by
  constructor
  · exact (claim_C1 _ "cv.pdf").2 ⟨rfl, by norm_num⟩
  · exact (claim_C1 _ "cv.pdf").1 (Or.inr (by norm_num))

/-- Auxiliary: a binding present in `d` survives appending more entries. -/
theorem dget_append_left {d l : PyDict} {k : String} {v : JVal}
    (h : dget d k = some v) : dget (d ++ l) k = some v := by
  unfold dget at h ⊢
  cases hf : d.find? (fun p => p.1 = k) with
  | none => rw [hf] at h; simp at h
  | some p =>
    rw [hf] at h
    rw [List.find?_append, hf]
    simpa using h

/-- Auxiliary: appending a single binding for another key does not change
membership. -/
theorem dmem_append_single_ne {d : PyDict} {k k' : String} {v : JVal}
    (h : k' ≠ k) : dmem (d ++ [(k, v)]) k' = dmem d k' := by
  unfold dmem dget
  rw [List.find?_append]
  have : List.find? (fun p => p.1 = k') [(k, v)] = none := by
    simp [List.find?, h.symm]
  rw [this]
  simp

/-- Auxiliary: appending a binding for an absent key makes it retrievable. -/
theorem dget_append_single_self {d : PyDict} {k : String} {v : JVal}
    (h : dmem d k = false) : dget (d ++ [(k, v)]) k = some v := by
  unfold dmem at h
  unfold dget at h ⊢
  rw [List.find?_append]
  cases hf : d.find? (fun p => p.1 = k) with
  | some p => rw [hf] at h; simp at h
  | none => simp [List.find?]

/-- Auxiliary: `dset` on an absent key is an append. -/
theorem dset_of_absent {d : PyDict} {k : String} {v : JVal}
    (h : dmem d k = false) : dset d k v = d ++ [(k, v)] := by
  simp [dset, h]

/-- Auxiliary: the backfill fold never destroys an existing binding. -/
theorem dget_foldl_backfill_of_mem (L : List (String × JVal)) :
    ∀ (d : PyDict) (k : String) (v : JVal), dget d k = some v →
      dget (L.foldl (fun d fv => if dmem d fv.1 then d else dset d fv.1 fv.2) d)
        k = some v := by
  induction L with
  | nil => intro d k v h; simpa using h
  | cons fv L ih =>
    intro d k v h
    rw [List.foldl_cons]
    apply ih
    cases hm : dmem d fv.1 with
    | true => simpa [hm] using h
    | false =>
      rw [if_neg (by simp [hm]), dset_of_absent hm]
      exact dget_append_left h

/-- Auxiliary: the backfill fold installs the default of every listed field
that is absent from the dict, provided the listed keys are distinct. -/
theorem dget_foldl_backfill_of_absent (L : List (String × JVal)) :
    ∀ (d : PyDict) (k : String) (v : JVal), (k, v) ∈ L →
      (L.map Prod.fst).Nodup → dmem d k = false →
      dget (L.foldl (fun d fv => if dmem d fv.1 then d else dset d fv.1 fv.2) d)
        k = some v := by
  induction L with
  | nil => intro d k v h; simp at h
  | cons fv L ih =>
    intro d k v hmem hnod habs
    rw [List.foldl_cons]
    rcases List.mem_cons.mp hmem with heq | htail
    · subst heq
      rw [if_neg (by simp [habs]), dset_of_absent habs]
      exact dget_foldl_backfill_of_mem L _ _ _ (dget_append_single_self habs)
    · have hk : k ∈ L.map Prod.fst := List.mem_map_of_mem Prod.fst htail
      have hne : k ≠ fv.1 := by
        intro he
        exact (List.nodup_cons.mp hnod).1 (he ▸ hk)
      have habs' : dmem (if dmem d fv.1 then d else dset d fv.1 fv.2) k = false := by
        cases hm : dmem d fv.1 with
        | true => simpa [hm] using habs
        | false =>
          rw [if_neg (by simp [hm]), dset_of_absent hm,
            dmem_append_single_ne hne]
          exact habs
      exact ih _ k v htail (List.nodup_cons.mp hnod).2 habs'

/-- C2 (counterexample): on a provider response that is not JSON, the analysis
returned by the text path does **not** carry `processing_method =
"failed-parse"` — the caller stamps `"gemini_text_analysis"` over the parse
result unconditionally — and its improvement note is the literal
"Resume analysis needs manual review", not "needs manual review". -/
theorem claim_C2_counterexample :
    (analyze_resume_text_result
        (fun _ => .error "Expecting value: line 1 column 1 (char 0)")
        "this is not json").processing_method = .str "gemini_text_analysis" ∧
    (analyze_resume_text_result
        (fun _ => .error "Expecting value: line 1 column 1 (char 0)")
        "this is not json").processing_method ≠ .str "failed-parse" ∧
    (analyze_resume_text_result
        (fun _ => .error "Expecting value: line 1 column 1 (char 0)")
        "this is not json").areas_for_improvement
      = .arr [.str "Resume analysis needs manual review"] := by
  refine ⟨rfl, ?_, rfl⟩
  intro h
  rw [show (analyze_resume_text_result
      (fun _ => .error "Expecting value: line 1 column 1 (char 0)")
      "this is not json").processing_method = .str "gemini_text_analysis"
    from rfl] at h
  injection h with h'
  exact absurd h' (by decide)

/-- C2 (amended): for every provider response text whose parse fails, the
parsing step never raises (it is total) and the analysis returned to the
caller is degraded with `overall_score = 25`, `confidence_score = 0.1`,
`parsing_error` a short diagnostic, and
`areas_for_improvement = ["Resume analysis needs manual review"]`; its
`processing_method` is the route label `"gemini_text_analysis"`, not
`"failed-parse"`. -/
theorem claim_C2_amended (json_loads : String → Except String PyDict)
    (response_text : String) (e : String)
    (h : json_loads (strip_code_fences response_text) = .error e) :
    (analyze_resume_text_result json_loads response_text).overall_score
        = .num 25 ∧
    (analyze_resume_text_result json_loads response_text).confidence_score
        = .num (1/10) ∧
    (analyze_resume_text_result json_loads response_text).processing_method
        = .str "gemini_text_analysis" ∧
    (analyze_resume_text_result json_loads response_text).parsing_error
        = .str ("JSON parsing failed: " ++ e) ∧
    (analyze_resume_text_result json_loads response_text).areas_for_improvement
        = .arr [.str "Resume analysis needs manual review"] := by
  unfold analyze_resume_text_result parse_analysis_response
  rw [h]
  exact ⟨rfl, rfl, rfl, rfl, rfl⟩

/-- Witness for C2 (amended): a concrete failing parse yields the degraded
result. -/
theorem claim_C2_witness :
    (analyze_resume_text_result (fun _ => .error "boom") "oops").overall_score
        = .num 25 ∧
    (analyze_resume_text_result (fun _ => .error "boom") "oops").confidence_score
        = .num (1/10) ∧
    (analyze_resume_text_result (fun _ => .error "boom") "oops").processing_method
        = .str "gemini_text_analysis" ∧
    (analyze_resume_text_result (fun _ => .error "boom") "oops").parsing_error
        = .str ("JSON parsing failed: " ++ "boom") ∧
    (analyze_resume_text_result (fun _ => .error "boom") "oops").areas_for_improvement
        = .arr [.str "Resume analysis needs manual review"] :=
  claim_C2_amended (fun _ => .error "boom") "oops" "boom" rfl

/-- C6 (counterexample): the documented backfill defaults are not the neutral
zeros the claim states: an empty parsed object gets `overall_score = 50.0`
and `confidence_score = 0.5`. -/
theorem claim_C6_counterexample :
    dget (backfill_required_fields []) "overall_score" = some (.num 50) ∧
    (50 : ℚ) ≠ 0 ∧
    dget (backfill_required_fields []) "confidence_score" = some (.num (1/2)) ∧
    (1/2 : ℚ) ≠ 0 :=
  ⟨rfl, by norm_num, rfl, by norm_num⟩

/-- Auxiliary: a retrievable key is a member. -/
theorem dmem_of_dget_some {d : PyDict} {k : String} {v : JVal}
    (h : dget d k = some v) : dmem d k = true := by
  unfold dmem
  rw [h]
  rfl

/-- C6 (amended): on successful parse every required field absent from the
parsed object is backfilled with its fixed default (`overall_score` 50.0,
`confidence_score` 0.5, `experience_years` 0, `experience_level` "entry",
`analysis_summary` a fixed string, collections empty), present fields are
left untouched, and afterwards every required key is present, so downstream
consumers never see a missing key. -/
theorem claim_C6_amended (data : PyDict) :
    (∀ kv ∈ REQUIRED_FIELDS, dmem (backfill_required_fields data) kv.1 = true) ∧
    (∀ kv ∈ REQUIRED_FIELDS, dmem data kv.1 = false →
      dget (backfill_required_fields data) kv.1 = some kv.2) ∧
    (∀ (k : String) (v : JVal), dget data k = some v →
      dget (backfill_required_fields data) k = some v) ∧
    dget REQUIRED_FIELDS "overall_score" = some (.num 50) ∧
    dget REQUIRED_FIELDS "confidence_score" = some (.num (1/2)) := by
  have hnodup : (REQUIRED_FIELDS.map Prod.fst).Nodup := by decide
  refine ⟨?_, ?_, ?_, rfl, rfl⟩
  · intro kv hkv
    cases hm : dmem data kv.1 with
    | true =>
      rcases Option.isSome_iff_exists.mp hm with ⟨w, hw⟩
      exact dmem_of_dget_some
        (dget_foldl_backfill_of_mem REQUIRED_FIELDS data kv.1 w hw)
    | false =>
      exact dmem_of_dget_some
        (dget_foldl_backfill_of_absent REQUIRED_FIELDS data kv.1 kv.2
          (by simpa using hkv) hnodup hm)
  · intro kv hkv hm
    exact dget_foldl_backfill_of_absent REQUIRED_FIELDS data kv.1 kv.2
      (by simpa using hkv) hnodup hm
  · intro k v hv
    exact dget_foldl_backfill_of_mem REQUIRED_FIELDS data k v hv

/-- Witness for C6 (amended): a concrete parsed object missing
`overall_score` gets the default 50 and ends up with the key present. -/
theorem claim_C6_witness :
    dmem (backfill_required_fields [("foo", .num 1)]) "overall_score" = true ∧
    dget (backfill_required_fields [("foo", .num 1)]) "overall_score"
      = some (.num 50) := by
  have hmem : ("overall_score", JVal.num 50) ∈ REQUIRED_FIELDS := by
    unfold REQUIRED_FIELDS
    exact List.mem_cons_self _ _
  exact ⟨(claim_C6_amended [("foo", .num 1)]).1 ("overall_score", .num 50) hmem,
    (claim_C6_amended [("foo", .num 1)]).2.1 ("overall_score", .num 50) hmem rfl⟩

/-- C9: when the underlying provider call fails, the readiness assessor does
not raise and returns a degraded but well-formed assessment: aggregate
readiness score 0, empty question-assessment list, and a note in the
recommendations list. -/
theorem claim_C9 (json_loads : String → Except String PyDict)
    (resume_analysis : ResumeAnalysisResult) (job_questions : List PyDict)
    (provider_response : Except String String) (e : String)
    (h : provider_response = .error e) :
    dget (assess_qa_readiness json_loads resume_analysis job_questions
        provider_response) "qa_readiness_score" = some (.num 0) ∧
    dget (assess_qa_readiness json_loads resume_analysis job_questions
        provider_response) "question_assessments" = some (.arr []) ∧
    dget (assess_qa_readiness json_loads resume_analysis job_questions
        provider_response) "interview_recommendations"
      = some (.arr [.str "Manual assessment required due to error"]) := by
  subst h
  exact ⟨rfl, rfl, rfl⟩

/-- Witness for C9: a concrete provider failure yields the degraded
assessment. -/
theorem claim_C9_witness :
    dget (assess_qa_readiness (fun _ => .ok [])
        (ResumeAnalysisResult.ofData []) [] (.error "rate limited"))
      "qa_readiness_score" = some (.num 0) ∧
    dget (assess_qa_readiness (fun _ => .ok [])
        (ResumeAnalysisResult.ofData []) [] (.error "rate limited"))
      "question_assessments" = some (.arr []) ∧
    dget (assess_qa_readiness (fun _ => .ok [])
        (ResumeAnalysisResult.ofData []) [] (.error "rate limited"))
      "interview_recommendations"
      = some (.arr [.str "Manual assessment required due to error"]) :=
  claim_C9 (fun _ => .ok []) (ResumeAnalysisResult.ofData []) []
    (.error "rate limited") "rate limited" rfl

/-- Auxiliary: `analyze_single` always returns its own key. -/
theorem analyze_single_fst
    (analyze_complete : String → Except String ResumeAnalysisResult)
    (file_key : String) :
    (analyze_single analyze_complete file_key).1 = file_key := by
  unfold analyze_single
  cases analyze_complete file_key <;> rfl

/-- C3: for every map of N submitted keys, batch analysis returns exactly one
entry per submitted key — exactly N entries — and a failing per-key analysis
is converted into a degraded entry rather than dropped. -/
theorem claim_C3
    (analyze_complete : String → Except String ResumeAnalysisResult)
    (file_keys : List String) :
    (batch_analyze_resumes analyze_complete file_keys).length
        = file_keys.length ∧
    (batch_analyze_resumes analyze_complete file_keys).map Prod.fst
        = file_keys ∧
    (∀ k e, k ∈ file_keys → analyze_complete k = .error e →
      (k, ResumeAnalysisResult.ofData (BATCH_ERROR_DATA e))
        ∈ batch_analyze_resumes analyze_complete file_keys) := by
  refine ⟨by simp [batch_analyze_resumes], ?_, ?_⟩
  · unfold batch_analyze_resumes
    rw [List.map_map]
    have : (Prod.fst ∘ analyze_single analyze_complete) = id := by
      funext k
      exact analyze_single_fst analyze_complete k
    rw [this, List.map_id]
  · intro k e hk he
    have : analyze_single analyze_complete k
        = (k, ResumeAnalysisResult.ofData (BATCH_ERROR_DATA e)) := by
      unfold analyze_single
      rw [he]
    exact this ▸ List.mem_map_of_mem (analyze_single analyze_complete) hk

/-- Witness for C3: a two-key batch in which one analysis fails still yields
two entries, in key order, with the failing key bound to the degraded
result. -/
theorem claim_C3_witness :
    (batch_analyze_resumes
        (fun k => if k = "b" then .error "provider down"
          else .ok (ResumeAnalysisResult.ofData []))
        ["a", "b"]).length = 2 ∧
    (batch_analyze_resumes
        (fun k => if k = "b" then .error "provider down"
          else .ok (ResumeAnalysisResult.ofData []))
        ["a", "b"]).map Prod.fst = ["a", "b"] ∧
    ("b", ResumeAnalysisResult.ofData (BATCH_ERROR_DATA "provider down"))
      ∈ batch_analyze_resumes
        (fun k => if k = "b" then .error "provider down"
          else .ok (ResumeAnalysisResult.ofData []))
        ["a", "b"] := by
  refine ⟨(claim_C3 _ ["a", "b"]).1, (claim_C3 _ ["a", "b"]).2.1,
    (claim_C3 _ ["a", "b"]).2.2 "b" "provider down" (by decide) (by rfl)⟩

/-- C4: the model invoker makes at most 3 attempts; a provider failing twice
then succeeding returns the success after exactly 3 attempts (no fourth
attempt, backoff sleeps 1 s then 2 s); a provider failing on all three
attempts propagates the final `ProviderError`. -/
theorem claim_C4 (provider : Nat → Except ProviderError GenResponse) :
    (generate_content_async provider).2.1 ≤ 3 ∧
    (∀ e0 e1 r, provider 0 = .error e0 → provider 1 = .error e1 →
      provider 2 = .ok r →
      generate_content_async provider = (.ok r, 3, [1, 2])) ∧
    (∀ e0 e1 e2, provider 0 = .error e0 → provider 1 = .error e1 →
      provider 2 = .error e2 →
      generate_content_async provider = (.error e2, 3, [1, 2])) := by
  refine ⟨?_, ?_, ?_⟩
  · unfold generate_content_async
    rw [generate_content_loop]
    cases h0 : provider 0 with
    | ok r => simp
    | error e0 =>
      simp only []
      rw [generate_content_loop]
      cases h1 : provider 1 with
      | ok r => simp
      | error e1 =>
        simp only []
        rw [generate_content_loop]
        cases h2 : provider 2 with
        | ok r => simp
        | error e2 => simp
  · intro e0 e1 r h0 h1 h2
    unfold generate_content_async
    rw [generate_content_loop, h0]
    simp only [Nat.reduceSub, Nat.lt_irrefl, reduceDIte]
    rw [generate_content_loop, h1]
    simp only []
    rw [generate_content_loop, h2]
    rfl
  · intro e0 e1 e2 h0 h1 h2
    unfold generate_content_async
    rw [generate_content_loop, h0]
    simp only []
    rw [generate_content_loop, h1]
    simp only []
    rw [generate_content_loop, h2]
    rfl


/-- C5: the quality scorer always lands in [0,1]; a text under 100 characters
scores exactly 0.0; a text of at least 100 characters with fewer than 20
words scores exactly 0.2. -/
theorem claim_C5 (text : String) :
    (0 ≤ assess_text_quality text ∧ assess_text_quality text ≤ 1) ∧
    (text.length < 100 → assess_text_quality text = 0) ∧
    (100 ≤ text.length → pyWordCount text < 20 →
      assess_text_quality text = 1/5) := by
  refine ⟨?_, ?_, ?_⟩
  · unfold assess_text_quality
    by_cases h0 : text = "" ∨ text.length < MIN_TEXT_LENGTH
    · rw [if_pos h0]
      exact ⟨le_refl 0, zero_le_one⟩
    · rw [if_neg h0]
      by_cases hw : pyWordCount text < MIN_WORD_COUNT
      · rw [if_pos hw]
        constructor <;> norm_num
      · rw [if_neg hw]
        exact ⟨le_min (le_max_right _ 0) zero_le_one, min_le_right _ 1⟩
  · intro h
    unfold assess_text_quality
    rw [if_pos (Or.inr (show text.length < MIN_TEXT_LENGTH from h))]
  · intro h1 h2
    unfold assess_text_quality
    rw [if_neg, if_pos (show pyWordCount text < MIN_WORD_COUNT from h2)]
    rintro (he | hl)
    · rw [he] at h1
      simp at h1
    · have : text.length < 100 := hl
      omega

/-- Witness for C5: a 150-character single-word text scores 0.2, a short text
scores 0.0, and the 150-character text's score is within bounds. -/
theorem claim_C5_witness :
    assess_text_quality (String.mk (List.replicate 150 'a')) = 1/5 ∧
    assess_text_quality "short" = 0 ∧
    0 ≤ assess_text_quality (String.mk (List.replicate 150 'a')) :=
  ⟨(claim_C5 (String.mk (List.replicate 150 'a'))).2.2 (by decide) (by decide),
   (claim_C5 "short").2.1 (by decide),
   (claim_C5 (String.mk (List.replicate 150 'a'))).1.1⟩

/-- C7 (code divergence): with PyPDF2 confidence 0.5 and pdfplumber
confidence 0.6, the PDF extraction engine returns the pdfplumber result
whose confidence 0.6 is below the 0.7 threshold, yet `needs_vlm_processing`
is left `false` — the early return taken when the second strategy scores
strictly higher skips the flag-setting step, contradicting the claim and the
threshold constant's own "Below this, recommend VLM processing" comment. -/
theorem claim_C7_code_divergence :
    (extract_from_pdf
        (fun _ => { text := "pypdf text", method := "direct_pdf_pypdf2",
                    confidence := 1/2, metadata := [] })
        (fun _ => { text := "plumber text", method := "direct_pdf_pdfplumber",
                    confidence := 3/5, metadata := [] })).confidence
        < MIN_CONFIDENCE_THRESHOLD ∧
    (extract_from_pdf
        (fun _ => { text := "pypdf text", method := "direct_pdf_pypdf2",
                    confidence := 1/2, metadata := [] })
        (fun _ => { text := "plumber text", method := "direct_pdf_pdfplumber",
                    confidence := 3/5, metadata := [] })).needs_vlm_processing
        = false ∧
    (extract_from_pdf
        (fun _ => { text := "pypdf text", method := "direct_pdf_pypdf2",
                    confidence := 1/2, metadata := [] })
        (fun _ => { text := "plumber text", method := "direct_pdf_pdfplumber",
                    confidence := 3/5, metadata := [] })).method
        = "direct_pdf_pdfplumber" := by
  have hres : extract_from_pdf
      (fun _ => { text := "pypdf text", method := "direct_pdf_pypdf2",
                  confidence := 1/2, metadata := [] })
      (fun _ => { text := "plumber text", method := "direct_pdf_pdfplumber",
                  confidence := 3/5, metadata := [] })
      = { text := "plumber text", method := "direct_pdf_pdfplumber",
          confidence := 3/5, metadata := [] } := by
    unfold extract_from_pdf
    rw [if_neg (by norm_num [MIN_CONFIDENCE_THRESHOLD]), if_pos (by norm_num)]
  rw [hres]
  refine ⟨by norm_num [MIN_CONFIDENCE_THRESHOLD], rfl, rfl⟩

set_option maxHeartbeats 1000000 in
/-- Auxiliary: cleaning is the identity on the already-clean 50-word text. -/
theorem clean_fiftyWordText_eq :
    clean_text id (fun _ => true) fiftyWordText = fiftyWordText := by decide

set_option maxHeartbeats 1000000 in
/-- Auxiliary: the 50-word keyword-free text scores exactly the 0.3 base
confidence: no section pattern, email or phone matches, 149 characters,
50 words, no special characters. -/
theorem assess_fiftyWordText_eq :
    assess_text_quality fiftyWordText = 3/10 := by
  have hpm : (RESUME_SECTION_PATTERNS.filter
      (fun pat => re_search_sections pat fiftyWordText)).length = 0 := by decide
  have hplen : RESUME_SECTION_PATTERNS.length = 3 := by decide
  have hem : email_search fiftyWordText = false := by decide
  have hph : phone_search fiftyWordText = false := by decide
  have hsc : specialCharCount fiftyWordText = 0 := by decide
  have hlen : fiftyWordText.length = 149 := by decide
  have hwc : pyWordCount fiftyWordText = 50 := by decide
  unfold assess_text_quality
  rw [if_neg (by decide), if_neg (by decide)]
  simp only [hpm, hplen, hem, hph, hsc, hlen, hwc]
  norm_num [min_def, max_def]

/-- Auxiliary: the extraction confidence of the 50-word text is 0.3. -/
theorem extract_fiftyWordText_confidence :
    (extract_from_text id (fun _ => true) fiftyWordText).confidence = 3/10 := by
  show assess_text_quality (clean_text id (fun _ => true) fiftyWordText) = 3/10
  rw [clean_fiftyWordText_eq, assess_fiftyWordText_eq]

/-- C8 (counterexample): the concrete 50-word keyword-free plain-text content
refutes the claim: extraction gives it confidence 0.3 > 0.2 and leaves
`needs_fallback` false. -/
theorem claim_C8_counterexample :
    ¬ ((extract_from_text id (fun _ => true) fiftyWordText).confidence ≤ 1/5 ∧
       (extract_from_text id (fun _ => true) fiftyWordText).needs_vlm_processing
         = true) := by
  intro h
  have h1 := h.1
  rw [extract_fiftyWordText_confidence] at h1
  exact absurd h1 (by norm_num)

/-- C8 (amended): the plain-text extractor never sets `needs_fallback` (the
constructor call omits the flag, leaving its `False` default), and a 50-word
plain-text file with no resume keywords whose cleaned text is 100–500
characters with no email/phone match and a low special-character share gets
confidence exactly 0.3. -/
theorem claim_C8_amended :
    (∀ (nfkd : List Char → List Char) (printable : List Char → Bool)
      (raw_text : String),
      (extract_from_text nfkd printable raw_text).needs_vlm_processing
        = false) ∧
    (extract_from_text id (fun _ => true) fiftyWordText).confidence = 3/10 :=
  ⟨fun _ _ _ => rfl, extract_fiftyWordText_confidence⟩

/-- Auxiliary: every character produced by the whitespace collapse is a space
or a non-whitespace character. -/
theorem mem_collapseWsGo : ∀ (inRun : Bool) (l : List Char) (c : Char),
    c ∈ collapseWsGo inRun l → c = ' ' ∨ pyIsSpace c = false := by
  intro inRun l
  induction l generalizing inRun with
  | nil => intro c h; simp [collapseWsGo] at h
  | cons d rest ih =>
    intro c h
    by_cases hd : pyIsSpace d = true
    · cases inRun with
      | true =>
        rw [show collapseWsGo true (d :: rest) = collapseWsGo true rest from by
          simp [collapseWsGo, hd]] at h
        exact ih true c h
      | false =>
        rw [show collapseWsGo false (d :: rest)
            = ' ' :: collapseWsGo true rest from by
          simp [collapseWsGo, hd]] at h
        rcases List.mem_cons.mp h with rfl | h2
        · exact Or.inl rfl
        · exact ih true c h2
    · rw [show collapseWsGo inRun (d :: rest) = d :: collapseWsGo false rest from by
        simp [collapseWsGo, hd]] at h
      rcases List.mem_cons.mp h with rfl | h2
      · exact Or.inr (by simpa using hd)
      · exact ih false c h2

/-- Auxiliary: flushing a non-ASCII run yields a space or run characters. -/
theorem mem_flushNonAscii (printable : List Char → Bool) (run : List Char)
    (c : Char) (h : c ∈ flushNonAscii printable run) : c = ' ' ∨ c ∈ run := by
  unfold flushNonAscii at h
  split_ifs at h with h1 h2
  · simp at h
  · exact Or.inr (List.mem_reverse.mp h)
  · simp at h
    exact Or.inl h

/-- Auxiliary: the non-ASCII pass only outputs spaces or input characters. -/
theorem mem_nonAsciiFixGo (printable : List Char → Bool) :
    ∀ (l run : List Char) (c : Char), c ∈ nonAsciiFixGo printable run l →
      c = ' ' ∨ c ∈ run ∨ c ∈ l := by
  intro l
  induction l with
  | nil =>
    intro run c h
    unfold nonAsciiFixGo at h
    rcases mem_flushNonAscii printable run c h with h1 | h2
    · exact Or.inl h1
    · exact Or.inr (Or.inl h2)
  | cons d rest ih =>
    intro run c h
    by_cases hd : 0x7F < d.toNat
    · rw [show nonAsciiFixGo printable run (d :: rest)
          = nonAsciiFixGo printable (d :: run) rest from by
        simp [nonAsciiFixGo, hd]] at h
      rcases ih (d :: run) c h with h1 | h2 | h3
      · exact Or.inl h1
      · rcases List.mem_cons.mp h2 with rfl | hr
        · exact Or.inr (Or.inr (List.mem_cons_self _ _))
        · exact Or.inr (Or.inl hr)
      · exact Or.inr (Or.inr (List.mem_cons_of_mem d h3))
    · rw [show nonAsciiFixGo printable run (d :: rest)
          = flushNonAscii printable run ++ d :: nonAsciiFixGo printable [] rest
          from by simp [nonAsciiFixGo, hd]] at h
      rcases List.mem_append.mp h with hf | hc
      · rcases mem_flushNonAscii printable run c hf with h1 | h2
        · exact Or.inl h1
        · exact Or.inr (Or.inl h2)
      · rcases List.mem_cons.mp hc with rfl | h2
        · exact Or.inr (Or.inr (List.mem_cons_self _ _))
        · rcases ih [] c h2 with h1 | h2 | h3
          · exact Or.inl h1
          · simp at h2
          · exact Or.inr (Or.inr (List.mem_cons_of_mem d h3))

/-- Auxiliary: after the first five cleaning steps every character is a space
or a non-whitespace character (the whitespace collapse ran first and no later
step introduces whitespace other than plain spaces). -/
theorem mem_clean_text_pre (nfkd : List Char → List Char)
    (printable : List Char → Bool) (text : String) (c : Char)
    (h : c ∈ clean_text_pre nfkd printable text) :
    c = ' ' ∨ pyIsSpace c = false := by
  unfold clean_text_pre nonAsciiFix at h
  rcases mem_nonAsciiFixGo printable _ [] c h with h1 | h2 | h3
  · exact Or.inl h1
  · simp at h2
  · have h4 := (List.mem_filter.mp h3).1
    have h5 := (List.mem_filter.mp h4).1
    exact mem_collapseWsGo false _ c h5

/-- Auxiliary: line-ending normalization is the identity on carriage-return
free text. -/
theorem crToLf_eq_self : ∀ (l : List Char), '\r' ∉ l → crToLf l = l := by
  intro l
  induction l with
  | nil => intro; rfl
  | cons c rest ih =>
    intro h
    have hc : c ≠ '\r' := by
      rintro rfl
      exact h (List.mem_cons_self _ _)
    have h2 : '\r' ∉ rest := fun hm => h (List.mem_cons_of_mem _ hm)
    have key : crToLf (c :: rest) = c :: crToLf rest := by
      rw [crToLf.eq_def]
      split <;> simp_all
    rw [key, ih h2]

/-- Auxiliary: blank-line collapsing is the identity on newline-free text. -/
theorem collapseNlGo_eq_self : ∀ (l : List Char), '\n' ∉ l →
    collapseNlGo 0 l = l := by
  intro l
  induction l with
  | nil => intro; rfl
  | cons c rest ih =>
    intro h
    have hc : ¬(c = '\n') := by
      rintro rfl
      exact h (List.mem_cons_self _ _)
    have h2 : '\n' ∉ rest := fun hm => h (List.mem_cons_of_mem _ hm)
    unfold collapseNlGo
    rw [if_neg hc, ih h2]
    rfl

/-- Auxiliary: stripping only removes characters. -/
theorem mem_pyStrip (l : List Char) (c : Char) (h : c ∈ pyStrip l) : c ∈ l := by
  unfold pyStrip at h
  have h1 := List.mem_reverse.mp h
  have h2 := List.dropWhile_subset _ h1
  have h3 := List.mem_reverse.mp h2
  exact List.dropWhile_subset _ h3

/-- C10: for every input (and any behaviour of the external NFKD and
printability oracles), the cleaned text contains no newline, carriage return
or tab — the whitespace collapse replaces every whitespace run with a single
space before the later steps run — and consequently the line-ending
normalization and blank-line collapsing steps are identity operations on
their input. -/
theorem claim_C10 (nfkd : List Char → List Char) (printable : List Char → Bool)
    (text : String) :
    (∀ c ∈ (clean_text nfkd printable text).data,
      c ≠ '\n' ∧ c ≠ '\r' ∧ c ≠ '\t') ∧
    crToLf (clean_text_pre nfkd printable text)
      = clean_text_pre nfkd printable text ∧
    collapseNewlines (clean_text_pre nfkd printable text)
      = clean_text_pre nfkd printable text := by
  have hnr : '\r' ∉ clean_text_pre nfkd printable text := by
    intro hm
    rcases mem_clean_text_pre nfkd printable text _ hm with h1 | h2
    · exact absurd h1 (by decide)
    · exact absurd h2 (by decide)
  have hnn : '\n' ∉ clean_text_pre nfkd printable text := by
    intro hm
    rcases mem_clean_text_pre nfkd printable text _ hm with h1 | h2
    · exact absurd h1 (by decide)
    · exact absurd h2 (by decide)
  have hcr : crToLf (clean_text_pre nfkd printable text)
      = clean_text_pre nfkd printable text := crToLf_eq_self _ hnr
  have hcn : collapseNewlines (clean_text_pre nfkd printable text)
      = clean_text_pre nfkd printable text := collapseNlGo_eq_self _ hnn
  refine ⟨?_, hcr, hcn⟩
  intro c hc
  unfold clean_text at hc
  by_cases ht : text = ""
  · rw [if_pos ht] at hc
    simp at hc
  · rw [if_neg ht] at hc
    have hc2 : c ∈ pyStrip (collapseNewlines (crToLf
        (clean_text_pre nfkd printable text))) := hc
    rw [hcr, hcn] at hc2
    have hc3 := mem_pyStrip _ _ hc2
    rcases mem_clean_text_pre nfkd printable text _ hc3 with h1 | h2
    · subst h1
      exact ⟨by decide, by decide, by decide⟩
    · refine ⟨?_, ?_, ?_⟩ <;> (rintro rfl; exact absurd h2 (by decide))

/-- Witness for C10: a concrete multi-line tabbed input cleans to a single
line and its first letter is none of newline, carriage return, tab. -/
theorem claim_C10_witness :
    'l' ∈ (clean_text id (fun _ => true) "line1\n\n\n\tline2\r\nend").data ∧
    'l' ≠ '\n' ∧ 'l' ≠ '\r' ∧ 'l' ≠ '\t' :=
  ⟨by decide,
   (claim_C10 id (fun _ => true) "line1\n\n\n\tline2\r\nend").1 'l' (by decide)⟩

/-- Witness for C4: a provider failing twice then succeeding returns the
success after exactly 3 attempts with backoff sleeps [1, 2]; a provider
failing on every attempt propagates the final error. -/
theorem claim_C4_witness :
    generate_content_async
      (fun n => if n < 2 then .error ⟨"transient"⟩ else .ok ⟨"response"⟩)
      = (.ok ⟨"response"⟩, 3, [1, 2]) ∧
    generate_content_async (fun _ => .error ⟨"down"⟩)
      = (.error ⟨"down"⟩, 3, [1, 2]) :=
  ⟨(claim_C4 (fun n => if n < 2 then .error ⟨"transient"⟩ else .ok ⟨"response"⟩)).2.1
      ⟨"transient"⟩ ⟨"transient"⟩ ⟨"response"⟩ rfl rfl rfl,
   (claim_C4 (fun _ => .error ⟨"down"⟩)).2.2 ⟨"down"⟩ ⟨"down"⟩ ⟨"down"⟩ rfl rfl rfl⟩
